import Mathlib

/-!
Verification of the image-fetcher pipeline (`Fetched_Images.py`).

The Python program is embedded shallowly:
  * `md5_hexdigest` implements MD5 (used by `get_filename_from_url` as the
    fallback filename source, mirroring `hashlib.md5(url.encode()).hexdigest()`);
  * `urlparse_path` models `urllib.parse.urlparse(url).path`;
  * `os_path_basename` / `os_path_join` / `os_path_exists` model the
    corresponding `os.path` functions (POSIX behaviour);
  * `validate_response_headers`, `get_filename_from_url`, `file_already_exists`,
    `download_image`, `create_save_directory` and `main_run` mirror the Python
    functions of the same names; exceptions become explicit `Except` values and
    per-URL `Outcome`s, the filesystem becomes an explicit `FS` value, and the
    network becomes an `Env` oracle.  `download_image` additionally emits an
    event trace recording network contact, validation success and file writes,
    so that temporal claims about ordering of side effects can be stated.
-/

/-! ## String primitives

Computable counterparts of the Python string operations the program uses,
written over `List Char` so that every definition evaluates by kernel
reduction. -/

/-- `as` starts with `bs`. -/
def starts_with_list : List Char → List Char → Bool
  | _, [] => true
  | [], _ :: _ => false
  | a :: as, b :: bs => a == b && starts_with_list as bs

/-- Python `s.startswith(p)`. -/
def starts_with (s p : String) : Bool := starts_with_list s.toList p.toList

/-- Python `s.endswith(p)`. -/
def ends_with (s p : String) : Bool :=
  starts_with_list s.toList.reverse p.toList.reverse

/-- Python `s.lower()` (ASCII case mapping). -/
def lower_str (s : String) : String := String.mk (s.toList.map Char.toLower)

/-- Python `s.strip()`: surrounding whitespace removed. -/
def trim_str (s : String) : String :=
  String.mk ((s.toList.dropWhile Char.isWhitespace).reverse.dropWhile
    Char.isWhitespace).reverse

/-- Drop the first `n` characters. -/
def str_drop (s : String) (n : Nat) : String := String.mk (s.toList.drop n)

/-- Number of characters. -/
def str_len (s : String) : Nat := s.toList.length

/-- Split a character list at every occurrence of `sep`; always non-empty. -/
def split_on_char (sep : Char) : List Char → List (List Char)
  | [] => [[]]
  | c :: rest =>
    let r := split_on_char sep rest
    if c == sep then [] :: r
    else
      match r with
      | [] => [[c]]
      | h :: t => (c :: h) :: t

/-- Python `s.split(sep)` for a one-character separator. -/
def split_on_str (s : String) (sep : Char) : List String :=
  (split_on_char sep s.toList).map String.mk

/-- Join strings with a one-character separator (`sep.join(l)`). -/
def join_sep (sep : Char) : List String → String
  | [] => ""
  | [x] => x
  | x :: y :: rest => x ++ String.mk [sep] ++ join_sep sep (y :: rest)

/-- Concatenation of a list of strings (`"".join(l)`). -/
def concat_strings : List String → String
  | [] => ""
  | h :: t => h ++ concat_strings t

/-! ## Bytes, hex and UTF-8 helpers -/

/-- `leBytes k n` is the `k`-byte little-endian representation of `n`. -/
def leBytes : Nat → Nat → List Nat
  | 0, _ => []
  | k + 1, n => n % 256 :: leBytes k (n / 256)

/-- Lowercase hex digit for a value `0 ≤ n < 16`. -/
def hexDigitChar (n : Nat) : Char :=
  if n < 10 then Char.ofNat (48 + n) else Char.ofNat (87 + n)

/-- Two lowercase hex characters for one byte. -/
def byteToHex (b : Nat) : String :=
  String.mk [hexDigitChar (b / 16 % 16), hexDigitChar (b % 16)]

/-- UTF-8 encoding of a single character, as byte values. -/
def utf8EncodeCharBytes (c : Char) : List Nat :=
  let n := c.toNat
  if n < 128 then [n]
  else if n < 2048 then [192 ||| (n >>> 6), 128 ||| (n &&& 63)]
  else if n < 65536 then
    [224 ||| (n >>> 12), 128 ||| ((n >>> 6) &&& 63), 128 ||| (n &&& 63)]
  else
    [240 ||| (n >>> 18), 128 ||| ((n >>> 12) &&& 63),
     128 ||| ((n >>> 6) &&& 63), 128 ||| (n &&& 63)]

/-- UTF-8 encoding of a string (Python's `str.encode()`), as byte values. -/
def str_utf8 (s : String) : List Nat :=
  (s.toList.map utf8EncodeCharBytes).flatten

/-! ## MD5 (`hashlib.md5`) -/

/-- `2 ^ 32`, the word modulus of MD5. -/
def M32 : Nat := 4294967296

/-- Bitwise complement on 32-bit words. -/
def not32 (x : Nat) : Nat := 4294967295 - x % M32

/-- Left rotation of a 32-bit word by `n` places. -/
def rotl32 (x n : Nat) : Nat :=
  (((x % M32) <<< n) % M32) ||| ((x % M32) >>> (32 - n))

/-- The 64 MD5 sine-derived constants (RFC 1321 table T). -/
def md5_K : List Nat :=
  [0xd76aa478, 0xe8c7b756, 0x242070db, 0xc1bdceee,
   0xf57c0faf, 0x4787c62a, 0xa8304613, 0xfd469501,
   0x698098d8, 0x8b44f7af, 0xffff5bb1, 0x895cd7be,
   0x6b901122, 0xfd987193, 0xa679438e, 0x49b40821,
   0xf61e2562, 0xc040b340, 0x265e5a51, 0xe9b6c7aa,
   0xd62f105d, 0x02441453, 0xd8a1e681, 0xe7d3fbc8,
   0x21e1cde6, 0xc33707d6, 0xf4d50d87, 0x455a14ed,
   0xa9e3e905, 0xfcefa3f8, 0x676f02d9, 0x8d2a4c8a,
   0xfffa3942, 0x8771f681, 0x6d9d6122, 0xfde5380c,
   0xa4beea44, 0x4bdecfa9, 0xf6bb4b60, 0xbebfbc70,
   0x289b7ec6, 0xeaa127fa, 0xd4ef3085, 0x04881d05,
   0xd9d4d039, 0xe6db99e5, 0x1fa27cf8, 0xc4ac5665,
   0xf4292244, 0x432aff97, 0xab9423a7, 0xfc93a039,
   0x655b59c3, 0x8f0ccc92, 0xffeff47d, 0x85845dd1,
   0x6fa87e4f, 0xfe2ce6e0, 0xa3014314, 0x4e0811a1,
   0xf7537e82, 0xbd3af235, 0x2ad7d2bb, 0xeb86d391]

/-- The 64 MD5 per-round left-rotation amounts. -/
def md5_s : List Nat :=
  [7, 12, 17, 22, 7, 12, 17, 22, 7, 12, 17, 22, 7, 12, 17, 22,
   5, 9, 14, 20, 5, 9, 14, 20, 5, 9, 14, 20, 5, 9, 14, 20,
   4, 11, 16, 23, 4, 11, 16, 23, 4, 11, 16, 23, 4, 11, 16, 23,
   6, 10, 15, 21, 6, 10, 15, 21, 6, 10, 15, 21, 6, 10, 15, 21]

def md5_F (b c d : Nat) : Nat := (b &&& c) ||| (not32 b &&& d)
def md5_G (b c d : Nat) : Nat := (d &&& b) ||| (not32 d &&& c)
def md5_H (b c d : Nat) : Nat := (b ^^^ c) ^^^ d
def md5_I (b c d : Nat) : Nat := c ^^^ (b ||| not32 d)

structure MD5State where
  a : Nat
  b : Nat
  c : Nat
  d : Nat
deriving DecidableEq

/-- Little-endian 32-bit word `j` of a 64-byte block. -/
def word_at (bs : List Nat) (j : Nat) : Nat :=
  bs.getD (4 * j) 0 + 256 * bs.getD (4 * j + 1) 0 +
    65536 * bs.getD (4 * j + 2) 0 + 16777216 * bs.getD (4 * j + 3) 0

/-- One of the 64 MD5 rounds on one block. -/
def md5_step (w : Nat → Nat) (st : MD5State) (i : Nat) : MD5State :=
  let fg : Nat × Nat :=
    if i < 16 then (md5_F st.b st.c st.d, i)
    else if i < 32 then (md5_G st.b st.c st.d, (5 * i + 1) % 16)
    else if i < 48 then (md5_H st.b st.c st.d, (3 * i + 5) % 16)
    else (md5_I st.b st.c st.d, (7 * i) % 16)
  let f := (fg.1 + st.a + md5_K.getD i 0 + w fg.2) % M32
  ⟨st.d, (st.b + rotl32 f (md5_s.getD i 0)) % M32, st.b, st.c⟩

/-- MD5 compression of one 64-byte block. -/
def md5_chunk (st : MD5State) (block : List Nat) : MD5State :=
  let r := (List.range 64).foldl (md5_step (word_at block)) st
  ⟨(st.a + r.a) % M32, (st.b + r.b) % M32, (st.c + r.c) % M32, (st.d + r.d) % M32⟩

def md5_init : MD5State := ⟨0x67452301, 0xefcdab89, 0x98badcfe, 0x10325476⟩

/-- MD5 padding: a `0x80` byte, zeros to 56 mod 64, then the 64-bit
little-endian bit length. -/
def md5_pad (msg : List Nat) : List Nat :=
  let L := msg.length
  msg ++ [128] ++ List.replicate ((120 - (L + 1) % 64) % 64) 0 ++
    leBytes 8 ((8 * L) % (2 ^ 64))

/-- Cut a padded message into `k` blocks of 64 bytes. -/
def md5_blocks : List Nat → Nat → List (List Nat)
  | _, 0 => []
  | l, k + 1 => l.take 64 :: md5_blocks (l.drop 64) k

/-- The 16-byte MD5 digest of a byte sequence. -/
def md5_digest_bytes (msg : List Nat) : List Nat :=
  let padded := md5_pad msg
  let st := (md5_blocks padded (padded.length / 64)).foldl md5_chunk md5_init
  leBytes 4 st.a ++ leBytes 4 st.b ++ leBytes 4 st.c ++ leBytes 4 st.d

/-- `hashlib.md5(s.encode()).hexdigest()`: lowercase hex MD5 of a string. -/
def md5_hexdigest (s : String) : String :=
  concat_strings ((md5_digest_bytes (str_utf8 s)).map byteToHex)

/-! ## `urllib.parse.urlparse(url).path` -/

/-- Characters allowed in a URL scheme after the first (CPython `scheme_chars`). -/
def scheme_char (c : Char) : Bool :=
  c.isAlpha || c.isDigit || c == '+' || c == '-' || c == '.'

/-- CPython `urlsplit` scheme handling: when the text before the first colon is
a well-formed scheme, return the text after that colon; otherwise the input. -/
def url_split_scheme (url : String) : String :=
  let before := (split_on_str url ':').headD url
  if str_len before > 0 && str_len before < str_len url &&
      (match before.toList with
       | [] => false
       | c :: _ => c.isAlpha) &&
      before.toList.all scheme_char then
    str_drop url (str_len before + 1)
  else url

/-- CPython `_splitnetloc`: when the (scheme-stripped) URL starts with `//`,
drop the netloc, i.e. everything up to the next `/`, `?` or `#`. -/
def url_after_netloc (url : String) : String :=
  if starts_with url "//" then
    String.mk ((str_drop url 2).toList.dropWhile fun c => c != '/' && c != '?' && c != '#')
  else url

/-- Text before the first `#` (CPython fragment split). -/
def strip_fragment (s : String) : String := (split_on_str s '#').headD s

/-- Text before the first `?` (CPython query split). -/
def strip_query (s : String) : String := (split_on_str s '?').headD s

/-- CPython `_splitparams`: remove a `;params` suffix from the last path
segment (from the whole path when it has no `/`). -/
def split_params (p : String) : String :=
  if p.toList.contains ';' then
    if p.toList.contains '/' then
      let segs := split_on_str p '/'
      let last := segs.getLastD ""
      if last.toList.contains ';' then
        join_sep '/' (segs.dropLast ++ [(split_on_str last ';').headD last])
      else p
    else (split_on_str p ';').headD p
  else p

/-- `urllib.parse.urlparse(url).path`: strip scheme, netloc, fragment, query
and params, in CPython's order. -/
def urlparse_path (url : String) : String :=
  split_params (strip_query (strip_fragment (url_after_netloc (url_split_scheme url))))

/-! ## `os.path` (POSIX) -/

/-- `os.path.basename`: the part of a path after its last `/`. -/
def os_path_basename (p : String) : String :=
  (split_on_str p '/').getLastD ""

/-- `os.path.join` on two components (POSIX). -/
def os_path_join (a b : String) : String :=
  if starts_with b "/" then b
  else if a == "" || ends_with a "/" then a ++ b
  else a ++ "/" ++ b

/-! ## Python `int()` on header strings -/

/-- Decimal digits with single interior underscores (the body of Python's
`int` literal grammar), accumulating a value; `none` when malformed. -/
def dec_underscore_aux : List Char → Nat → Option Nat
  | [], acc => some acc
  | '_' :: c :: rest, acc =>
    if c.isDigit then dec_underscore_aux rest (acc * 10 + (c.toNat - 48)) else none
  | c :: rest, acc =>
    if c.isDigit then dec_underscore_aux rest (acc * 10 + (c.toNat - 48)) else none

/-- A non-empty digit run (underscores allowed between digits), as a number. -/
def dec_underscore : List Char → Option Nat
  | [] => none
  | c :: rest => if c.isDigit then dec_underscore_aux rest (c.toNat - 48) else none

/-- Python `int(s)` on a decimal string: surrounding whitespace stripped,
optional sign, digits with underscores; `none` models a raised `ValueError`. -/
def python_int (s : String) : Option Int :=
  match (trim_str s).toList with
  | '+' :: rest => (dec_underscore rest).map Int.ofNat
  | '-' :: rest => (dec_underscore rest).map fun n => -(Int.ofNat n)
  | cs => (dec_underscore cs).map Int.ofNat

/-! ## The program (`Fetched_Images.py`) -/

/-- `SAVE_DIR = "Fetched_Images"`. -/
def SAVE_DIR : String := "Fetched_Images"

/-- Response headers as the program reads them: the declared `Content-Type`
and `Content-Length`, each possibly absent. -/
structure Headers where
  contentType : Option String
  contentLength : Option String
deriving DecidableEq

/-- The `ValueError`s the program can raise while validating headers. -/
inductive ValidationError where
  /-- "Invalid file type. Only image files are allowed." -/
  | invalidFileType
  /-- "File is too large (limit is 10MB)." -/
  | fileTooLarge
  /-- `int()` raised on a malformed `Content-Length` value. -/
  | malformedLength
deriving DecidableEq

instance : DecidableEq (Except ValidationError Unit) := fun a b =>
  match a, b with
  | Except.error x, Except.error y =>
    if h : x = y then isTrue (by rw [h]) else isFalse (by simp [h])
  | Except.error _, Except.ok _ => isFalse (by simp)
  | Except.ok _, Except.error _ => isFalse (by simp)
  | Except.ok (), Except.ok () => isTrue rfl

/-- `validate_response_headers(response)`: require an `image/` content type
(missing header defaults to the empty string, then lowercased), and reject a
present, non-empty `Content-Length` whose integer value exceeds 10 MiB. -/
def validate_response_headers (h : Headers) : Except ValidationError Unit :=
  let content_type := lower_str (h.contentType.getD "")
  if !starts_with content_type "image/" then
    Except.error ValidationError.invalidFileType
  else
    match h.contentLength with
    | none => Except.ok ()
    | some s =>
      if s == "" then Except.ok ()
      else
        match python_int s with
        | none => Except.error ValidationError.malformedLength
        | some n =>
          if n > 10 * 1024 * 1024 then Except.error ValidationError.fileTooLarge
          else Except.ok ()

/-- `get_filename_from_url(url)`: basename of the URL's path, or, when that is
empty, the MD5 hex digest of the URL followed by `".jpg"`. -/
def get_filename_from_url (url : String) : String :=
  let filename := os_path_basename (urlparse_path url)
  if filename = "" then md5_hexdigest url ++ ".jpg" else filename

/-- The destination path `os.path.join(SAVE_DIR, filename)` for a URL. -/
def destination_path (url : String) : String :=
  os_path_join SAVE_DIR (get_filename_from_url url)

/-- The filesystem, reduced to what the program observes: directory names and
files with byte contents. -/
structure FS where
  dirs : List String
  files : List (String × List Nat)
deriving DecidableEq

/-- `os.path.exists`: a directory or file entry at the path. -/
def os_path_exists (fs : FS) (p : String) : Bool :=
  fs.dirs.contains p || (fs.files.map Prod.fst).contains p

/-- `file_already_exists(filepath)`. -/
def file_already_exists (fs : FS) (p : String) : Bool := os_path_exists fs p

/-- Content of the file at `p`, when one exists. -/
def fs_lookup (fs : FS) (p : String) : Option (List Nat) :=
  (fs.files.find? fun e => e.1 == p).map Prod.snd

/-- Writing `open(p, 'wb')` then the chunks: replaces any file at `p`. -/
def fs_write (fs : FS) (p : String) (content : List Nat) : FS :=
  { fs with files := (fs.files.filter fun e => e.1 != p) ++ [(p, content)] }

/-- `create_save_directory()`: `os.makedirs(SAVE_DIR, exist_ok=True)`. -/
def create_save_directory (fs : FS) : FS :=
  if fs.dirs.contains SAVE_DIR then fs else { fs with dirs := fs.dirs ++ [SAVE_DIR] }

/-- Outcome of `requests.get(url, timeout=10, stream=True)` followed by
`raise_for_status()`: either some `requests.exceptions.RequestException`
(connection failure, timeout or non-2xx status), or a response with headers
and a stream of body chunks. -/
inductive FetchResult where
  | transportError
  | success (headers : Headers) (chunks : List (List Nat))

/-- The external world of one run: what fetching each URL yields, and whether
opening a given path for writing raises an `OSError`. -/
structure Env where
  fetch : String → FetchResult
  openFails : String → Bool

/-- The bytes `download_image` writes: every non-empty chunk (`if chunk:`),
in order. -/
def body_bytes (chunks : List (List Nat)) : List Nat :=
  (chunks.filter fun c => !c.isEmpty).flatten

/-- Per-URL outcome, mirroring the messages `download_image` prints. -/
inductive Outcome where
  /-- "Successfully fetched" / "Image saved to". -/
  | saved (filename : String) (filepath : String)
  /-- "Skipping duplicate". -/
  | duplicateSkip (filename : String)
  /-- "Connection error" (`RequestException` handler). -/
  | connectionError
  /-- "Skipping {url}: {e}" (`ValueError` handler). -/
  | validationSkip (e : ValidationError)
  /-- "Unexpected error" (bare `Exception` handler). -/
  | unexpectedError
deriving DecidableEq

/-- Observable side effects of one URL's processing, in order. -/
inductive Event where
  /-- The network request for a URL was issued. -/
  | fetchAttempt (url : String)
  /-- `validate_response_headers` returned without raising. -/
  | validationOk
  /-- The body bytes were written to a path. -/
  | fileWrite (path : String) (content : List Nat)
deriving DecidableEq

/-- `download_image(url)`: fetch, validate headers, resolve the destination,
skip when it exists, otherwise stream the body to the new file; every raised
exception is caught and becomes an `Outcome`.  Returns the final filesystem,
the outcome, and the trace of side effects. -/
def download_image (env : Env) (fs : FS) (url : String) : FS × Outcome × List Event :=
  match env.fetch url with
  | FetchResult.transportError => (fs, Outcome.connectionError, [Event.fetchAttempt url])
  | FetchResult.success headers chunks =>
    match validate_response_headers headers with
    | Except.error e => (fs, Outcome.validationSkip e, [Event.fetchAttempt url])
    | Except.ok _ =>
      let filename := get_filename_from_url url
      let filepath := os_path_join SAVE_DIR filename
      if file_already_exists fs filepath then
        (fs, Outcome.duplicateSkip filename, [Event.fetchAttempt url, Event.validationOk])
      else if env.openFails filepath then
        (fs, Outcome.unexpectedError, [Event.fetchAttempt url, Event.validationOk])
      else
        (fs_write fs filepath (body_bytes chunks),
         Outcome.saved filename filepath,
         [Event.fetchAttempt url, Event.validationOk,
          Event.fileWrite filepath (body_bytes chunks)])

/-- `urls = [url.strip() for url in urls_input.split(",") if url.strip()]`. -/
def collect_urls (input : String) : List String :=
  (split_on_str input ',').filterMap fun url =>
    let s := trim_str url
    if s = "" then none else some s

/-- The Input Collector as the specification words it: the comma-delimited
pieces, each trimmed, the empty ones discarded, in order. -/
def spec_input_collector (input : String) : List String :=
  ((split_on_str input ',').map trim_str).filter fun s => s != ""

/-- The per-URL loop of `main()`: process each URL in order, threading the
filesystem, collecting each URL's outcome and the concatenated trace. -/
def process_urls (env : Env) : FS → List String → FS × List (String × Outcome) × List Event
  | fs, [] => (fs, [], [])
  | fs, u :: rest =>
    let r1 := download_image env fs u
    let r2 := process_urls env r1.1 rest
    (r2.1, (u, r1.2.1) :: r2.2.1, r1.2.2 ++ r2.2.2)

/-- Result of `main()`. -/
inductive MainResult where
  /-- "No valid URLs provided. Exiting." -/
  | noValidUrls
  /-- All URLs attempted, each with its outcome. -/
  | completed (results : List (String × Outcome))
deriving DecidableEq

/-- `main()`: collect URLs; when none, report and stop before any side
effect; otherwise create the save directory and process every URL. -/
def main_run (env : Env) (fs : FS) (input : String) : FS × MainResult × List Event :=
  let urls := collect_urls input
  if urls.isEmpty then (fs, MainResult.noValidUrls, [])
  else
    let fs1 := create_save_directory fs
    let r := process_urls env fs1 urls
    (r.1, MainResult.completed r.2.1, r.2.2)

/-- The URLs for which a network request was issued, in trace order. -/
def fetched_urls (tr : List Event) : List String :=
  tr.filterMap fun e =>
    match e with
    | Event.fetchAttempt u => some u
    | _ => none

/-- `writes_after_validation seen tr` holds when every file write in `tr` is
preceded by a validation success (`seen` records one seen already). -/
def writes_after_validation : Bool → List Event → Bool
  | _, [] => true
  | seen, Event.fileWrite _ _ :: rest => seen && writes_after_validation seen rest
  | _, Event.validationOk :: rest => writes_after_validation true rest
  | seen, Event.fetchAttempt _ :: rest => writes_after_validation seen rest

/-! ## Helper lemmas -/

/-- The comprehension form and the map-then-filter form of URL collection
agree on any list of pieces. -/
theorem filterMap_trim_eq_filter (l : List String) :
    (l.filterMap fun url =>
      let s := trim_str url
      if s = "" then none else some s) =
      (l.map trim_str).filter fun s => s != "" := by
  induction l with
  | nil => rfl
  | cons a t ih =>
    by_cases hc : trim_str a = ""
    · simp [List.filterMap_cons, hc, ih]
    · simp [List.filterMap_cons, hc, ih]

/-- A validator run that passes the content-type test never reports the
invalid-file-type error. -/
theorem validate_ct_ok_not_invalid (h : Headers)
    (hct : starts_with (lower_str (h.contentType.getD "")) "image/" = true) :
    validate_response_headers h ≠ Except.error ValidationError.invalidFileType := by
  unfold validate_response_headers
  simp only [hct, Bool.not_true, Bool.false_eq_true, if_false]
  cases h.contentLength with
  | none => simp
  | some s =>
    simp only []
    split
    · simp
    · split
      · simp
      · split <;> simp

/-- The validator reports the invalid-file-type error exactly when the
lowercased declared content type does not start with `image/`. -/
theorem validate_invalid_iff (h : Headers) :
    validate_response_headers h = Except.error ValidationError.invalidFileType ↔
      starts_with (lower_str (h.contentType.getD "")) "image/" = false := by
  cases hct : starts_with (lower_str (h.contentType.getD "")) "image/" with
  | false =>
    unfold validate_response_headers
    simp [hct]
  | true =>
    simp only [Bool.true_eq_false, iff_false]
    exact validate_ct_ok_not_invalid h hct

/-- When validation fails, `download_image` only reports the error: the
filesystem is untouched and the trace is the bare fetch attempt. -/
theorem download_validation_error (env : Env) (fs : FS) (url : String)
    (headers : Headers) (chunks : List (List Nat)) (e : ValidationError)
    (hf : env.fetch url = FetchResult.success headers chunks)
    (hv : validate_response_headers headers = Except.error e) :
    download_image env fs url = (fs, Outcome.validationSkip e, [Event.fetchAttempt url]) := by
  simp only [download_image, hf, hv]

/-- `download_image` on a transport failure: report only. -/
theorem download_transport (env : Env) (fs : FS) (url : String)
    (hf : env.fetch url = FetchResult.transportError) :
    download_image env fs url = (fs, Outcome.connectionError, [Event.fetchAttempt url]) := by
  simp only [download_image, hf]

/-- `download_image` when the destination already exists: duplicate skip. -/
theorem download_dup (env : Env) (fs : FS) (url : String)
    (headers : Headers) (chunks : List (List Nat))
    (hf : env.fetch url = FetchResult.success headers chunks)
    (hv : validate_response_headers headers = Except.ok ())
    (hex : file_already_exists fs (os_path_join SAVE_DIR (get_filename_from_url url)) = true) :
    download_image env fs url =
      (fs, Outcome.duplicateSkip (get_filename_from_url url),
        [Event.fetchAttempt url, Event.validationOk]) := by
  simp only [download_image, hf, hv, hex, if_true]

/-- `download_image` when opening the new file raises: caught as unexpected. -/
theorem download_openfail (env : Env) (fs : FS) (url : String)
    (headers : Headers) (chunks : List (List Nat))
    (hf : env.fetch url = FetchResult.success headers chunks)
    (hv : validate_response_headers headers = Except.ok ())
    (hex : file_already_exists fs (os_path_join SAVE_DIR (get_filename_from_url url)) = false)
    (hop : env.openFails (os_path_join SAVE_DIR (get_filename_from_url url)) = true) :
    download_image env fs url =
      (fs, Outcome.unexpectedError, [Event.fetchAttempt url, Event.validationOk]) := by
  simp only [download_image, hf, hv, hex, hop, Bool.false_eq_true, if_false, if_true]

/-- `download_image` on the write path: the body is streamed to the new file. -/
theorem download_saved (env : Env) (fs : FS) (url : String)
    (headers : Headers) (chunks : List (List Nat))
    (hf : env.fetch url = FetchResult.success headers chunks)
    (hv : validate_response_headers headers = Except.ok ())
    (hex : file_already_exists fs (os_path_join SAVE_DIR (get_filename_from_url url)) = false)
    (hop : env.openFails (os_path_join SAVE_DIR (get_filename_from_url url)) = false) :
    download_image env fs url =
      (fs_write fs (os_path_join SAVE_DIR (get_filename_from_url url)) (body_bytes chunks),
        Outcome.saved (get_filename_from_url url) (os_path_join SAVE_DIR (get_filename_from_url url)),
        [Event.fetchAttempt url, Event.validationOk,
          Event.fileWrite (os_path_join SAVE_DIR (get_filename_from_url url)) (body_bytes chunks)]) := by
  simp only [download_image, hf, hv, hex, hop, Bool.false_eq_true, if_false]

/-- Each URL's processing issues exactly one network request, for that URL. -/
theorem download_fetched_urls (env : Env) (fs : FS) (u : String) :
    fetched_urls (download_image env fs u).2.2 = [u] := by
  cases hf : env.fetch u with
  | transportError => rw [download_transport env fs u hf]; rfl
  | success headers chunks =>
    cases hv : validate_response_headers headers with
    | error e => rw [download_validation_error env fs u headers chunks e hf hv]; rfl
    | ok v =>
      cases v
      by_cases hex : file_already_exists fs (os_path_join SAVE_DIR (get_filename_from_url u)) = true
      · rw [download_dup env fs u headers chunks hf hv hex]; rfl
      · have hex' : file_already_exists fs (os_path_join SAVE_DIR (get_filename_from_url u)) = false := by
          simpa using hex
        by_cases hop : env.openFails (os_path_join SAVE_DIR (get_filename_from_url u)) = true
        · rw [download_openfail env fs u headers chunks hf hv hex' hop]; rfl
        · have hop' : env.openFails (os_path_join SAVE_DIR (get_filename_from_url u)) = false := by
            simpa using hop
          rw [download_saved env fs u headers chunks hf hv hex' hop']; rfl

/-- Every URL in the list gets exactly one outcome and one fetch attempt, in
the input order, whatever the environment does. -/
theorem process_urls_results (env : Env) (urls : List String) : ∀ fs : FS,
    ((process_urls env fs urls).2.1).map Prod.fst = urls ∧
    fetched_urls (process_urls env fs urls).2.2 = urls := by
  induction urls with
  | nil => intro fs; exact ⟨rfl, rfl⟩
  | cons u rest ih =>
    intro fs
    obtain ⟨ih1, ih2⟩ := ih (download_image env fs u).1
    have h1 := download_fetched_urls env fs u
    constructor
    · simp only [process_urls, List.map_cons, List.cons.injEq, true_and]
      exact ih1
    · simp only [process_urls, fetched_urls, List.filterMap_append] at h1 ih2 ⊢
      rw [h1, ih2]
      rfl

/-- `find?` by key is unchanged by filtering out a different key. -/
theorem find?_filter_ne (l : List (String × List Nat)) (p q : String) (hpq : p ≠ q) :
    ((l.filter fun e => e.1 != q).find? fun e => e.1 == p) =
      l.find? fun e => e.1 == p := by
  induction l with
  | nil => rfl
  | cons a t ih =>
    by_cases hap : a.1 = p
    · have haq : (a.1 != q) = true := by
        rw [hap]; exact bne_iff_ne.mpr hpq
      rw [List.filter_cons, if_pos haq,
        List.find?_cons_of_pos _ (by rw [hap]; exact beq_self_eq_true p),
        List.find?_cons_of_pos _ (by rw [hap]; exact beq_self_eq_true p)]
    · have hap' : ((a.1 == p) = true) → False := by
        intro hh; exact hap (by simpa using hh)
      by_cases haq : a.1 = q
      · rw [List.filter_cons, if_neg (by simp [haq]),
          List.find?_cons_of_neg _ (by simpa using hap')]
        exact ih
      · rw [List.filter_cons, if_pos (bne_iff_ne.mpr haq),
          List.find?_cons_of_neg _ (by simpa using hap'),
          List.find?_cons_of_neg _ (by simpa using hap')]
        exact ih

/-- Looking up one path after writing a different path is unchanged. -/
theorem fs_lookup_write_ne (fs : FS) (p q : String) (c : List Nat) (hpq : p ≠ q) :
    fs_lookup (fs_write fs q c) p = fs_lookup fs p := by
  unfold fs_lookup fs_write
  simp only [List.find?_append, find?_filter_ne fs.files p q hpq]
  cases hfind : fs.files.find? fun e => e.1 == p with
  | none =>
    simp only [Option.none_or]
    rw [List.find?_cons_of_neg _ (by simp [Ne.symm hpq])]
    rfl
  | some e => rfl

/-- A path with a looked-up content exists on the filesystem. -/
theorem fs_lookup_some_exists (fs : FS) (p : String) (c : List Nat)
    (h : fs_lookup fs p = some c) : os_path_exists fs p = true := by
  unfold fs_lookup at h
  obtain ⟨e, he, _⟩ := Option.map_eq_some'.mp h
  have hmem : e ∈ fs.files := List.mem_of_find?_eq_some he
  have hpe : e.1 = p := by simpa using List.find?_some he
  have hmem2 : p ∈ fs.files.map Prod.fst := by
    rw [← hpe]; exact List.mem_map_of_mem Prod.fst hmem
  unfold os_path_exists
  have : (fs.files.map Prod.fst).contains p = true := List.elem_iff.mpr hmem2
  rw [this, Bool.or_true]

/-- Processing any URL never changes the content stored at an existing path. -/
theorem download_preserves_existing (env : Env) (fs : FS) (url p : String)
    (c : List Nat) (hl : fs_lookup fs p = some c) :
    fs_lookup (download_image env fs url).1 p = some c := by
  cases hf : env.fetch url with
  | transportError => rw [download_transport env fs url hf]; exact hl
  | success headers chunks =>
    cases hv : validate_response_headers headers with
    | error e => rw [download_validation_error env fs url headers chunks e hf hv]; exact hl
    | ok v =>
      cases v
      by_cases hex : file_already_exists fs (os_path_join SAVE_DIR (get_filename_from_url url)) = true
      · rw [download_dup env fs url headers chunks hf hv hex]; exact hl
      · have hex' : file_already_exists fs (os_path_join SAVE_DIR (get_filename_from_url url)) = false := by
          simpa using hex
        by_cases hop : env.openFails (os_path_join SAVE_DIR (get_filename_from_url url)) = true
        · rw [download_openfail env fs url headers chunks hf hv hex' hop]; exact hl
        · have hop' : env.openFails (os_path_join SAVE_DIR (get_filename_from_url url)) = false := by
            simpa using hop
          rw [download_saved env fs url headers chunks hf hv hex' hop']
          have hpq : p ≠ os_path_join SAVE_DIR (get_filename_from_url url) := by
            intro he
            have hpe := fs_lookup_some_exists fs p c hl
            rw [he] at hpe
            unfold file_already_exists at hex'
            rw [hpe] at hex'
            exact Bool.true_eq_false.mp hex'
          rw [fs_lookup_write_ne fs p _ (body_bytes chunks) hpq]
          exact hl

/-- A non-empty right factor makes a string concatenation non-empty. -/
theorem append_ne_empty_of_right (a b : String) (hb : b ≠ "") : a ++ b ≠ "" := by
  intro he
  apply hb
  have hd := congrArg String.data he
  rw [String.data_append] at hd
  have hbd : b.data = [] := (List.append_eq_nil.mp hd).2
  cases b with
  | mk l =>
    simp only [String.data] at hbd
    rw [hbd]

/-! ## Claims -/

/-- Claim C5: for every raw input string, the Input Collector's output equals
the sequence of comma-delimited pieces of the input, each trimmed of
surrounding whitespace, with empty pieces discarded, in original order and
with duplicates preserved (`spec_input_collector` states the specification's
words verbatim). -/
theorem C5_input_collector (input : String) :
    collect_urls input = spec_input_collector input :=
  filterMap_trim_eq_filter (split_on_str input ',')

/-- Claim C2: for every successfully fetched response, the Safety Validator
fails with the invalid-file-type validation error exactly when the declared
`Content-Type` (missing treated as empty), normalized to lowercase, does not
start with `"image/"`; and in the failing case the filesystem is unchanged
and nothing is written for that URL. -/
theorem C2_content_type_check (h : Headers) :
    (validate_response_headers h = Except.error ValidationError.invalidFileType ↔
      starts_with (lower_str (h.contentType.getD "")) "image/" = false) ∧
    (∀ (env : Env) (fs : FS) (url : String) (chunks : List (List Nat)),
      env.fetch url = FetchResult.success h chunks →
      validate_response_headers h = Except.error ValidationError.invalidFileType →
      (download_image env fs url).1 = fs ∧
      ∀ p c, Event.fileWrite p c ∉ (download_image env fs url).2.2) := by
  refine ⟨validate_invalid_iff h, ?_⟩
  intro env fs url chunks hf hv
  rw [download_validation_error env fs url h chunks _ hf hv]
  simp

theorem C2_witness :
    validate_response_headers ⟨some "text/html", none⟩ =
      Except.error ValidationError.invalidFileType ∧
    (download_image
        ⟨fun _ => FetchResult.success ⟨some "text/html", none⟩ [[1]], fun _ => false⟩
        ⟨[], []⟩ "http://example.com/page").1 = ⟨[], []⟩ :=
  ⟨(C2_content_type_check ⟨some "text/html", none⟩).1.mpr (by decide),
   ((C2_content_type_check ⟨some "text/html", none⟩).2
      ⟨fun _ => FetchResult.success ⟨some "text/html", none⟩ [[1]], fun _ => false⟩
      ⟨[], []⟩ "http://example.com/page" [[1]] rfl
      ((C2_content_type_check ⟨some "text/html", none⟩).1.mpr (by decide))).1⟩

/-- Claim C3, counterexample: a response carrying `Content-Length: 11000000`
(exceeding 10 MiB) together with `Content-Type: text/html` makes the
validator fail with the invalid-file-type error, not the size error — so, as
stated, "fails with a size validation error exactly when the value exceeds
10 MiB" is false for this response. -/
theorem C3_counterexample :
    python_int "11000000" = some 11000000 ∧
    (11000000 : Int) > 10 * 1024 * 1024 ∧
    validate_response_headers ⟨some "text/html", some "11000000"⟩ ≠
      Except.error ValidationError.fileTooLarge ∧
    validate_response_headers ⟨some "text/html", some "11000000"⟩ =
      Except.error ValidationError.invalidFileType := by
  decide

/-- Claim C3, amended: for every response whose declared content type passes
the image check and which carries a `Content-Length` header with integer
value `n`, the validator fails with the content-too-large error exactly when
`n` exceeds 10 × 1024 × 1024; and when the header is absent the validator
never fails with the size error. -/
theorem C3_size_check (h : Headers) (s : String) (n : Int)
    (hct : starts_with (lower_str (h.contentType.getD "")) "image/" = true)
    (hcl : h.contentLength = some s)
    (hs : s ≠ "")
    (hn : python_int s = some n) :
    (validate_response_headers h = Except.error ValidationError.fileTooLarge ↔
      n > 10 * 1024 * 1024) ∧
    (∀ h2 : Headers, h2.contentLength = none →
      validate_response_headers h2 ≠ Except.error ValidationError.fileTooLarge) := by
  constructor
  · unfold validate_response_headers
    simp only [hct, Bool.not_true, Bool.false_eq_true, if_false, hcl]
    have hs' : (s == "") = false := by simpa using hs
    simp only [hs', Bool.false_eq_true, if_false, hn]
    split
    next hgt => exact iff_of_true rfl hgt
    next hgt => exact iff_of_false (by simp) hgt
  · intro h2 hcl2
    unfold validate_response_headers
    simp only [hcl2]
    split <;> simp

theorem C3_witness :
    ((starts_with (lower_str ((⟨some "image/png", some "11000000"⟩ :
        Headers).contentType.getD "")) "image/" = true) ∧
      python_int "11000000" = some 11000000 ∧ "11000000" ≠ "") ∧
    (validate_response_headers ⟨some "image/png", some "11000000"⟩ =
        Except.error ValidationError.fileTooLarge ↔
      (11000000 : Int) > 10 * 1024 * 1024) :=
  ⟨⟨by decide, by decide, by decide⟩,
   (C3_size_check ⟨some "image/png", some "11000000"⟩ "11000000" 11000000
      (by decide) rfl (by decide) (by decide)).1⟩

/-- Claim C10: a response with no `Content-Type` header at all is validated
as if the declared type were the empty string, hence fails with the
invalid-file-type error; such a URL's processing reports a validation
failure, leaves the filesystem unchanged, and writes nothing. -/
theorem C10_missing_content_type (h : Headers) (hct : h.contentType = none) :
    validate_response_headers h = Except.error ValidationError.invalidFileType ∧
    (∀ (env : Env) (fs : FS) (url : String) (chunks : List (List Nat)),
      env.fetch url = FetchResult.success h chunks →
      (download_image env fs url).2.1 =
        Outcome.validationSkip ValidationError.invalidFileType ∧
      (download_image env fs url).1 = fs ∧
      ∀ p c, Event.fileWrite p c ∉ (download_image env fs url).2.2) := by
  have hv : validate_response_headers h = Except.error ValidationError.invalidFileType := by
    apply (validate_invalid_iff h).mpr
    rw [hct]
    decide
  refine ⟨hv, ?_⟩
  intro env fs url chunks hf
  rw [download_validation_error env fs url h chunks _ hf hv]
  simp

theorem C10_witness :
    ((⟨none, none⟩ : Headers).contentType = none) ∧
    validate_response_headers ⟨none, none⟩ =
      Except.error ValidationError.invalidFileType :=
  ⟨rfl, (C10_missing_content_type ⟨none, none⟩ rfl).1⟩

/-- Claim C6: when the parsed URL sequence is empty, the pipeline reports the
no-valid-URLs result and stops with the filesystem untouched (no output
directory created) and an empty side-effect trace (no network contact). -/
theorem C6_empty_input (env : Env) (fs : FS) (input : String)
    (h : collect_urls input = []) :
    main_run env fs input = (fs, MainResult.noValidUrls, []) := by
  unfold main_run
  simp [h]

theorem C6_witness :
    collect_urls "" = [] ∧
    main_run ⟨fun _ => FetchResult.transportError, fun _ => false⟩ ⟨[], []⟩ "" =
      (⟨[], []⟩, MainResult.noValidUrls, []) :=
  ⟨by decide,
   C6_empty_input ⟨fun _ => FetchResult.transportError, fun _ => false⟩ ⟨[], []⟩ ""
     (by decide)⟩

/-- Claim C9: in every execution of a single URL's processing, a file write
never occurs before header validation has succeeded: the side-effect trace
satisfies the write-after-validation discipline, and any write implies the
fetched response's headers passed `validate_response_headers`. -/
theorem C9_write_only_after_validation (env : Env) (fs : FS) (url : String) :
    writes_after_validation false (download_image env fs url).2.2 = true ∧
    (∀ p c, Event.fileWrite p c ∈ (download_image env fs url).2.2 →
      ∃ headers chunks, env.fetch url = FetchResult.success headers chunks ∧
        validate_response_headers headers = Except.ok ()) := by
  cases hf : env.fetch url with
  | transportError =>
    rw [download_transport env fs url hf]
    refine ⟨rfl, ?_⟩
    intro p c hmem
    simp at hmem
  | success headers chunks =>
    cases hv : validate_response_headers headers with
    | error e =>
      rw [download_validation_error env fs url headers chunks e hf hv]
      refine ⟨rfl, ?_⟩
      intro p c hmem
      simp at hmem
    | ok v =>
      cases v
      by_cases hex : file_already_exists fs (os_path_join SAVE_DIR (get_filename_from_url url)) = true
      · rw [download_dup env fs url headers chunks hf hv hex]
        refine ⟨rfl, ?_⟩
        intro p c hmem
        simp at hmem
      · have hex' : file_already_exists fs (os_path_join SAVE_DIR (get_filename_from_url url)) = false := by
          simpa using hex
        by_cases hop : env.openFails (os_path_join SAVE_DIR (get_filename_from_url url)) = true
        · rw [download_openfail env fs url headers chunks hf hv hex' hop]
          refine ⟨rfl, ?_⟩
          intro p c hmem
          simp at hmem
        · have hop' : env.openFails (os_path_join SAVE_DIR (get_filename_from_url url)) = false := by
            simpa using hop
          rw [download_saved env fs url headers chunks hf hv hex' hop']
          exact ⟨rfl, fun p c _ => ⟨headers, chunks, rfl, hv⟩⟩

/-- Claim C4: for every non-empty collected URL sequence, processing reaches
every URL whatever the environment does — transport failures, validation
failures and unexpected open failures included: each URL is paired with an
outcome, in input order, and each URL's network fetch is attempted exactly
once, in order. -/
theorem C4_every_url_attempted (env : Env) (fs : FS) (urls : List String)
    (_hne : urls ≠ []) :
    ((process_urls env fs urls).2.1).map Prod.fst = urls ∧
    fetched_urls (process_urls env fs urls).2.2 = urls :=
  process_urls_results env urls fs

theorem C4_witness :
    (["http://a/x.png", "http://b/y.png"] ≠ ([] : List String)) ∧
    ((process_urls ⟨fun _ => FetchResult.transportError, fun _ => false⟩ ⟨[], []⟩
        ["http://a/x.png", "http://b/y.png"]).2.1).map Prod.fst =
      ["http://a/x.png", "http://b/y.png"] :=
  ⟨by decide,
   (C4_every_url_attempted ⟨fun _ => FetchResult.transportError, fun _ => false⟩
      ⟨[], []⟩ ["http://a/x.png", "http://b/y.png"] (by decide)).1⟩

/-- Claim C7: for every URL whose path component has a non-empty final
segment, the resolved filename is exactly that final segment and the
destination path is the fixed output directory joined with it. -/
theorem C7_filename_from_path (url : String)
    (h : os_path_basename (urlparse_path url) ≠ "") :
    get_filename_from_url url = os_path_basename (urlparse_path url) ∧
    destination_path url =
      os_path_join SAVE_DIR (os_path_basename (urlparse_path url)) := by
  have h1 : get_filename_from_url url = os_path_basename (urlparse_path url) := by
    unfold get_filename_from_url
    simp [h]
  refine ⟨h1, ?_⟩
  unfold destination_path
  rw [h1]

theorem C7_witness :
    (os_path_basename (urlparse_path "https://example.com/photos/cat.jpg") ≠ "") ∧
    get_filename_from_url "https://example.com/photos/cat.jpg" =
      os_path_basename (urlparse_path "https://example.com/photos/cat.jpg") :=
  ⟨by decide,
   (C7_filename_from_path "https://example.com/photos/cat.jpg" (by decide)).1⟩

/-- Claim C8: for every URL whose path's final segment is empty, the resolved
filename is the MD5 hex digest of the URL string followed by the default
`.jpg` extension; it is deterministic in the URL, ends in `.jpg`, and both it
and the destination path are non-empty. -/
theorem C8_hash_fallback (url : String)
    (h : os_path_basename (urlparse_path url) = "") :
    get_filename_from_url url = md5_hexdigest url ++ ".jpg" ∧
    (∀ url2, url2 = url → get_filename_from_url url2 = get_filename_from_url url) ∧
    (∃ stem, get_filename_from_url url = stem ++ ".jpg") ∧
    get_filename_from_url url ≠ "" ∧
    destination_path url ≠ "" := by
  have h1 : get_filename_from_url url = md5_hexdigest url ++ ".jpg" := by
    unfold get_filename_from_url
    simp [h]
  have hjpg : (".jpg" : String) ≠ "" := by decide
  have hne : get_filename_from_url url ≠ "" := by
    rw [h1]; exact append_ne_empty_of_right _ _ hjpg
  refine ⟨h1, fun url2 h2 => by rw [h2], ⟨md5_hexdigest url, h1⟩, hne, ?_⟩
  unfold destination_path os_path_join
  by_cases hsw : starts_with (get_filename_from_url url) "/" = true
  · rw [if_pos hsw]; exact hne
  · rw [if_neg (by simpa using hsw)]
    have hmid : ((SAVE_DIR == "") || ends_with SAVE_DIR "/") = false := by decide
    rw [if_neg (by simp [hmid])]
    exact append_ne_empty_of_right _ _ hne

theorem C8_witness :
    (os_path_basename (urlparse_path "http://example.com/") = "") ∧
    get_filename_from_url "http://example.com/" =
      md5_hexdigest "http://example.com/" ++ ".jpg" :=
  ⟨by decide, (C8_hash_fallback "http://example.com/" (by decide)).1⟩

/-- Claim C1: when the destination path of a fetched, validated URL already
names an existing filesystem entry, processing performs no write at all — the
filesystem is returned unchanged — and reports the duplicate skip, whatever
the response body contains; moreover, for any environment and any URL, the
content stored at an existing path is never overwritten. -/
theorem C1_duplicate_skip (env : Env) (fs : FS) (url : String)
    (headers : Headers) (chunks : List (List Nat))
    (hf : env.fetch url = FetchResult.success headers chunks)
    (hv : validate_response_headers headers = Except.ok ())
    (hex : file_already_exists fs (destination_path url) = true) :
    (download_image env fs url).1 = fs ∧
    (download_image env fs url).2.1 = Outcome.duplicateSkip (get_filename_from_url url) ∧
    (∀ p c, Event.fileWrite p c ∉ (download_image env fs url).2.2) ∧
    (∀ (env2 : Env) (url2 p : String) (c : List Nat),
      fs_lookup fs p = some c → fs_lookup (download_image env2 fs url2).1 p = some c) := by
  unfold destination_path at hex
  rw [download_dup env fs url headers chunks hf hv hex]
  refine ⟨rfl, rfl, ?_, ?_⟩
  · intro p c hmem
    simp at hmem
  · intro env2 url2 p c hl
    exact download_preserves_existing env2 fs url2 p c hl

theorem C1_witness :
    (file_already_exists ⟨["Fetched_Images"], [("Fetched_Images/cat.jpg", [7])]⟩
        (destination_path "http://example.com/cat.jpg") = true) ∧
    (download_image
        ⟨fun _ => FetchResult.success ⟨some "image/png", none⟩ [[1, 2, 3]], fun _ => false⟩
        ⟨["Fetched_Images"], [("Fetched_Images/cat.jpg", [7])]⟩
        "http://example.com/cat.jpg").1 =
      ⟨["Fetched_Images"], [("Fetched_Images/cat.jpg", [7])]⟩ :=
  ⟨by decide,
   (C1_duplicate_skip
      ⟨fun _ => FetchResult.success ⟨some "image/png", none⟩ [[1, 2, 3]], fun _ => false⟩
      ⟨["Fetched_Images"], [("Fetched_Images/cat.jpg", [7])]⟩
      "http://example.com/cat.jpg" ⟨some "image/png", none⟩ [[1, 2, 3]]
      rfl (by decide) (by decide)).1⟩
